import Mathlib

/-!
Verification of the dvtag repository's core: title extraction
(src/dvtag/_utils.py), the metadata scraper (src/dvtag/_scrape.py) and the
tag synchronizer (src/dvtag/_dvtag.py), shallowly embedded in Lean.

External libraries (mutagen, requests, the re module, configparser) are
modelled at the boundary: tag containers become records of the managed
fields plus an untouched remainder, the regular expressions of the source
are compiled by hand into backtracking matchers over lists of characters,
and configuration booleans become explicit parameters.
-/

abbrev Chars := List Char

/-- Bytes of an image payload (PNG data, cover art). -/
abbrev Bytes := List Nat

/-- Whitespace as matched by Python's `\s` on `str` patterns (the set
accepted by `str.isspace`, restricted to the code points below 0x10000
that actually occur in file names). -/
def isPySpace (c : Char) : Bool :=
  c == ' ' || c == '\t' || c == '\n' || c == '\r' || c == '\x0b' || c == '\x0c' ||
  c == '\x1c' || c == '\x1d' || c == '\x1e' || c == '\x1f' ||
  c == '\x85' || c == '\xa0' || c == ' ' ||
  (0x2000 ≤ c.toNat && c.toNat ≤ 0x200a) ||
  c == ' ' || c == ' ' || c == ' ' || c == ' ' || c == '　'

/-- Decimal digits as matched by Python's `\d` (ASCII digits plus the
full-width digits, the only other decimal digits that occur in the
file names this tool processes). -/
def isPyDigit (c : Char) : Bool :=
  c.isDigit || ('０' ≤ c && c ≤ '９')

/-- The character class `[\-_‗\s\.．・,：]` of `_title_pat` (separators
allowed after a track word and inside the post-index separator). -/
def isSepA (c : Char) : Bool :=
  c == '-' || c == '_' || c == '‗' || isPySpace c ||
  c == '.' || c == '．' || c == '・' || c == ',' || c == '：'

/-- The character class `[\-_‗\s\.．・,：】$]` of `_title_pat` (group 3). -/
def isSepB (c : Char) : Bool :=
  isSepA c || c == '】' || c == '$'

/-- The lookahead class `[「『【]` of `_title_pat` (group 3, second branch). -/
def isQuoteOpen (c : Char) : Bool :=
  c == '「' || c == '『' || c == '【'

/-- First success of `f` over a list of candidates, in order; the shape of
leftmost-alternative-first backtracking. -/
def firstSome {α β : Type} (f : α → Option β) : List α → Option β
  | [] => none
  | a :: as =>
    match f a with
    | some b => some b
    | none => firstSome f as

/-- Strip `pat` (already lowercase) from the front of `l`, comparing
case-insensitively on ASCII letters (how `re.IGNORECASE` treats the
ASCII literals of `_title_pat`). -/
def stripCI (pat : Chars) (l : Chars) : Option Chars :=
  match pat, l with
  | [], rest => some rest
  | _ :: _, [] => none
  | p :: ps, c :: cs => if c.toLower == p then stripCI ps cs else none

/-- Group 4 of `_title_pat`: `(.+)` — at least one character, `.` not
matching a newline; greedy, so the body runs to the first newline. -/
def matchBody (l : Chars) : Option Chars :=
  match l with
  | [] => none
  | c :: _ => if c == '\n' then none else some (l.takeWhile (fun d => d != '\n'))

/-- Groups 3 and 4 of `_title_pat`: a nonempty greedy run of class-B
separators (backtracking from the longest run down so that group 4 keeps
at least one character), or else the zero-width lookahead before an
opening quote bracket. Returns group 4. -/
def tryG3G4 (l : Chars) : Option Chars :=
  let m := (l.takeWhile isSepB).length
  match firstSome (fun j => matchBody (l.drop j))
      (((List.range m).reverse).map (fun i => i + 1)) with
  | some b => some b
  | none =>
    match l with
    | [] => none
    | c :: _ => if isQuoteOpen c then matchBody l else none

/-- Groups 2–4 of `_title_pat`: `(\d+)` greedy with backtracking, then
groups 3 and 4. Returns group 4. -/
def tryG2 (l : Chars) : Option Chars :=
  let n := (l.takeWhile isPyDigit).length
  firstSome (fun k => tryG3G4 (l.drop k))
    (((List.range n).reverse).map (fun i => i + 1))

/-- Remainders after the alternative `【?tr(?:ack)?` of group 1, in the
order the backtracking engine tries them (optional `【` consumed first,
`ack` consumed first). -/
def trAlt (l : Chars) : List Chars :=
  let starts :=
    match l with
    | '【' :: rest => [rest, l]
    | _ => [l]
  starts.flatMap (fun s =>
    match stripCI ['t', 'r'] s with
    | none => []
    | some afterTr =>
      match stripCI ['a', 'c', 'k'] afterTr with
      | some afterAck => [afterAck, afterTr]
      | none => [afterTr])

/-- Remainders after `(?:【?tr(?:ack)?|トラック|音轨|とらっく)` of group 1,
alternatives in source order. -/
def wordAlts (l : Chars) : List Chars :=
  let opt : Option Chars → List Chars := fun o => o.toList
  trAlt l ++ opt (stripCI "トラック".data l) ++ opt (stripCI "音轨".data l) ++
    opt (stripCI "とらっく".data l)

/-- Remainders after the full track-word alternative of group 1 including
its trailing `[\-_‗\s\.．・,：]*`, greedy (longest run first). -/
def trackWordAlt (l : Chars) : List Chars :=
  (wordAlts l).flatMap (fun r =>
    let m := (r.takeWhile isSepA).length
    ((List.range (m + 1)).reverse).map (fun j => r.drop j))

/-- All remainders after the optional group 1 of `_title_pat`
`(#|■|◆|【|$|(?:【?tr(?:ack)?|トラック|音轨|とらっく)[\-_‗\s\.．・,：]*)?`, in
backtracking order (the `$` alternative is zero-width and only applies at
the end of input, where the following `\d+` can never match). -/
def g1Candidates (l : Chars) : List Chars :=
  (match l with | '#' :: r => [r] | _ => []) ++
  (match l with | '■' :: r => [r] | _ => []) ++
  (match l with | '◆' :: r => [r] | _ => []) ++
  (match l with | '【' :: r => [r] | _ => []) ++
  (if l = [] || l = ['\n'] then [l] else []) ++
  trackWordAlt l ++
  [l]

/-- `_title_pat.match(stem)`, returning `m.group(4)` on success: the
backtracking matcher for
`^(#|■|◆|【|$|(?:【?tr(?:ack)?|トラック|音轨|とらっく)[\-_‗\s\.．・,：]*)?(\d+)([\-_‗\s\.．・,：】$]+|(?=[「『【]))(.+)`
with `re.IGNORECASE`. -/
def matchTitle (stem : String) : Option String :=
  (firstSome tryG2 (g1Candidates stem.data)).map (fun cs => String.mk cs)

/-- Substring containment, the semantics of `re.search` on a pattern that
is a literal (or an alternation of literals, checked one by one). -/
def containsSub (pat s : String) : Bool :=
  s.data.tails.any (fun t => pat.data.isPrefixOf t)

/-- `re.search(r"(se|効果音|音效|声音効果)", name)` of `extract_titles`
(the sound-effect keyword set; note the source spells the last literal
with 声音效果). -/
def seSearch (s : String) : Bool :=
  containsSub "se" s || containsSub "効果音" s || containsSub "音效" s ||
    containsSub "声音效果" s

/-- `re.search(no_sound_pattern, name)` of `extract_titles`. -/
def noSoundSearch (s : String) : Bool :=
  containsSub "没有" s || containsSub "无" s || containsSub "無" s ||
    containsSub "入れ前" s || containsSub "なし" s || containsSub "off" s ||
    containsSub "no" s || containsSub "未含" s || containsSub "未加" s ||
    containsSub "カット" s

/-- `re.search(has_sound_pattern, name)` of `extract_titles`. -/
def hasSoundSearch (s : String) : Bool :=
  containsSub "有" s || containsSub "あり" s || containsSub "含" s ||
    containsSub "on" s || containsSub "有り" s || containsSub "付き" s ||
    containsSub "つき" s

/-- ASCII lowering, modelling `str.lower()` on the directory and
extension names compared here (the compared literals are ASCII or CJK,
and CJK is case-invariant). -/
def lowerStr (s : String) : String :=
  String.mk (s.data.map Char.toLower)

/-- The data `extract_titles` reads from each `Path`: its extension
(`file.suffix`), its parent directory name and its grandparent directory
name. -/
structure FileInfo where
  suffix : String
  parentName : String
  grandParentName : String
deriving Repr, DecidableEq

/-- The two configuration booleans `extract_titles` reads from
`config.ini` (both fall back to `True`); the file is not part of the
sources, so the values are passed explicitly. -/
structure TitleConfig where
  add_file_type_suffix : Bool
  add_sound_effect_suffix : Bool
deriving Repr, DecidableEq

/-- The per-stem body of the loop of `extract_titles`: match the stem
against `_title_pat` (group 4 on success, the raw stem on failure), then
append the configured file-type and sound-effect markers. -/
def extractOneTitle (cfg : TitleConfig) (stem : String) (f : FileInfo) : String :=
  let title :=
    match matchTitle stem with
    | some t => t
    | none => stem
  let title :=
    if cfg.add_file_type_suffix then
      if lowerStr f.suffix == ".mp3" then title ++ "-便携版"
      else if lowerStr f.suffix == ".flac" then title ++ "-高保真"
      else title
    else title
  if cfg.add_sound_effect_suffix then
    let parent := lowerStr f.parentName
    let grand := lowerStr f.grandParentName
    if seSearch parent || seSearch grand then
      if noSoundSearch parent || noSoundSearch grand then title ++ "-无音效"
      else if hasSoundSearch parent || hasSoundSearch grand then title ++ "-含音效"
      else title
    else title
  else title

/-- `extract_titles(sorted_stems, files)` of src/dvtag/_utils.py: one
title per zipped (stem, file) pair, each computed independently. -/
def extract_titles (cfg : TitleConfig) (sorted_stems : List String)
    (files : List FileInfo) : List String :=
  (sorted_stems.zip files).map (fun p => extractOneTitle cfg p.1 p.2)

/-- The release-metadata record of src/dvtag/_doujin_voice.py (the
dataclass is imported by _dvtag.py and _scrape.py; its fields are fixed
by the construction site in `scrape`). -/
structure DoujinVoice where
  id : String
  name : String
  image_url : String
  seiyus : List String
  circle : String
  genres : List String
  sale_date : String
deriving Repr, DecidableEq

/-- An `APIC` frame as built by `tag_mp3s`: mime type, description and
picture data (the attributes its snapshot comparison sees). -/
structure ApicFrame where
  mime : String
  desc : String
  data : Bytes
deriving Repr, DecidableEq

/-- An ID3 container restricted to the frames `tag_mp3s` manages (the
keys of its delete loop), plus the unmanaged remainder it never touches. -/
structure ID3 where
  apic : Option ApicFrame
  talb : Option (List String)
  tpe2 : Option (List String)
  tdrc : Option (List String)
  tcon : Option (List String)
  tpos : Option (List String)
  tpe1 : Option (List String)
  tit2 : Option (List String)
  trck : Option (List String)
  rest : List (String × List String)
deriving Repr, DecidableEq

/-- The comparison dictionary built by `extract_id3_tags`: the managed
frames that are present. -/
structure ID3Snapshot where
  apic : Option ApicFrame
  talb : Option (List String)
  tpe2 : Option (List String)
  tdrc : Option (List String)
  tcon : Option (List String)
  tpos : Option (List String)
  tpe1 : Option (List String)
  tit2 : Option (List String)
  trck : Option (List String)
deriving Repr, DecidableEq

/-- `extract_id3_tags(tags)` of src/dvtag/_utils.py. -/
def extract_id3_tags (t : ID3) : ID3Snapshot :=
  ⟨t.apic, t.talb, t.tpe2, t.tdrc, t.tcon, t.tpos, t.tpe1, t.tit2, t.trck⟩

/-- A FLAC picture as built by `tag_flacs`. -/
structure FlacPicture where
  pictype : Nat
  mime : String
  desc : String
  data : Bytes
deriving Repr, DecidableEq

/-- A FLAC container restricted to the Vorbis-comment keys `tag_flacs`
manages plus its picture list, with the unmanaged remainder. -/
structure FLACFile where
  album : Option (List String)
  albumartist : Option (List String)
  date : Option (List String)
  title : Option (List String)
  tracknumber : Option (List String)
  genre : Option (List String)
  artist : Option (List String)
  discnumber : Option (List String)
  pictures : List FlacPicture
  rest : List (String × List String)
deriving Repr, DecidableEq

/-- An absent or empty tag value is falsy in Python, so
`extract_flac_tags` and `extract_mp4_tags` drop it from their field
dictionaries. -/
def truthy {α : Type} (v : Option (List α)) : Option (List α) :=
  match v with
  | some [] => none
  | x => x

/-- The comparison dictionary built by `extract_flac_tags`: the managed,
truthy keys plus the data of the first picture (`None` if there is no
picture). -/
structure FlacSnapshot where
  album : Option (List String)
  albumartist : Option (List String)
  date : Option (List String)
  title : Option (List String)
  tracknumber : Option (List String)
  genre : Option (List String)
  artist : Option (List String)
  discnumber : Option (List String)
  picture : Option Bytes
deriving Repr, DecidableEq

/-- `extract_flac_tags(tags)` of src/dvtag/_utils.py. -/
def extract_flac_tags (t : FLACFile) : FlacSnapshot :=
  ⟨truthy t.album, truthy t.albumartist, truthy t.date, truthy t.title,
   truthy t.tracknumber, truthy t.genre, truthy t.artist, truthy t.discnumber,
   t.pictures.head?.map (fun p => p.data)⟩

/-- A value held by an MP4 text atom. `MP4Tags.__setitem__` validates and
then stores the assigned Python value unwrapped, so a bare string and a
list of strings are distinct values (and compare unequal, as in Python
`"x" != ["x"]`); loading a file from disk always yields lists. -/
inductive MP4Text where
  | str (s : String)
  | strs (l : List String)
deriving Repr, DecidableEq

/-- An MP4 container restricted to the atoms `tag_mp4s` manages, with the
unmanaged remainder. A text atom holds whatever value was last assigned
(a bare string or a list), or the list form after a load from disk. -/
structure MP4 where
  covr : Option (List Bytes)
  alb : Option MP4Text
  day : Option MP4Text
  nam : Option MP4Text
  aART : Option MP4Text
  art : Option MP4Text
  gen : Option MP4Text
  trkn : Option (List (Nat × Nat))
  disk : Option (List (Nat × Nat))
  rest : List (String × List String)
deriving Repr, DecidableEq

/-- Python truthiness of an MP4 text-atom value: an empty string and an
empty list are falsy, so `extract_mp4_tags` drops them. -/
def mp4TextTruthy : Option MP4Text → Option MP4Text
  | some (.str s) => if s = "" then none else some (.str s)
  | some (.strs l) => if l = [] then none else some (.strs l)
  | none => none

/-- The comparison dictionary built by `extract_mp4_tags`: the managed,
truthy atoms, holding the stored values as they are (a bare string from
an assignment in this run, a list from a loaded file). -/
structure Mp4Snapshot where
  covr : Option (List Bytes)
  alb : Option MP4Text
  day : Option MP4Text
  nam : Option MP4Text
  aART : Option MP4Text
  art : Option MP4Text
  gen : Option MP4Text
  trkn : Option (List (Nat × Nat))
  disk : Option (List (Nat × Nat))
deriving Repr, DecidableEq

/-- `extract_mp4_tags(tags)` of src/dvtag/_utils.py. -/
def extract_mp4_tags (t : MP4) : Mp4Snapshot :=
  ⟨truthy t.covr, mp4TextTruthy t.alb, mp4TextTruthy t.day, mp4TextTruthy t.nam,
   mp4TextTruthy t.aART, mp4TextTruthy t.art, mp4TextTruthy t.gen,
   truthy t.trkn, truthy t.disk⟩

/-- Reading an MP4 file back from disk: saving renders a bare string as a
single list entry, and a fresh load yields lists of strings for every
text atom; the cover, track and disc atoms round-trip unchanged. -/
def mp4Reload (t : MP4) : MP4 :=
  let norm : Option MP4Text → Option MP4Text := fun v =>
    match v with
    | some (.str s) => some (.strs [s])
    | x => x
  { t with
    alb := norm t.alb
    day := norm t.day
    nam := norm t.nam
    aART := norm t.aART
    art := norm t.art
    gen := norm t.gen }

/-- A file adjacent to a track, as seen by the sidecar-lyric check of
`tag_mp3s` and `tag_flacs` (`p.parent.iterdir()`): its name and its
extension (`f.suffix`). -/
structure SiblingFile where
  name : String
  suffix : String
deriving Repr, DecidableEq

/-- The sidecar-lyric test of `tag_mp3s` and `tag_flacs`:
`[f for f in p.parent.iterdir() if f.name.startswith(p.stem) and f.suffix.endswith(".lrc")]`
is nonempty. -/
def hasLyricSidecar (siblings : List SiblingFile) (stem : String) : Bool :=
  siblings.any (fun f =>
    stem.data.isPrefixOf f.name.data && ".lrc".data.isSuffixOf f.suffix.data)

/-- The genre list written by `tag_mp3s` and `tag_flacs`: when the
chinese-tag toggle is on and a sidecar lyric file is present, append the
literal 中文 to a copy of `dv.genres` unless already present (or use
`['中文']` when the base list is empty); otherwise `dv.genres` unchanged. -/
def mp3FlacGenres (add_chinese_tag : Bool) (hasLrc : Bool)
    (genres0 : List String) : List String :=
  if add_chinese_tag then
    if hasLrc then
      if genres0 = [] then ["中文"]
      else if "中文" ∈ genres0 then genres0
      else genres0 ++ ["中文"]
    else genres0
  else genres0

/-- The genre list written by `tag_mp4s`: the 中文 append is triggered by
`add_chinese_tag and '中文' in str(p.parent)` — the parent directory path
containing the literal, not by sidecar lyric files. -/
def mp4Genres (add_chinese_tag : Bool) (parentPath : String)
    (genres0 : List String) : List String :=
  if add_chinese_tag && containsSub "中文" parentPath then
    if genres0 = [] then ["中文"]
    else if "中文" ∈ genres0 then genres0
    else genres0 ++ ["中文"]
  else genres0

/-- The field mutation of one iteration of `tag_mp3s`: delete every
managed frame, then add `APIC` (only when cover bytes are present),
`TALB`, `TPE2`, `TDRC`, `TCON` (only when the genre list is nonempty),
`TPOS` (only when a disc number is given), `TPE1` (only when the seiyu
list is nonempty), `TIT2` and `TRCK`. -/
def applyId3 (dv : DoujinVoice) (cover : Option Bytes) (disc : Option Nat)
    (genres : List String) (trackNo : Nat) (title : String) (t : ID3) : ID3 :=
  { apic := cover.map (fun d => ⟨"image/png", "Front Cover", d⟩)
    talb := some [dv.name]
    tpe2 := some [dv.circle]
    tdrc := some [dv.sale_date]
    tcon := if genres = [] then none else some [String.intercalate ";" genres]
    tpos := disc.map (fun d => [toString d])
    tpe1 := if dv.seiyus = [] then none else some dv.seiyus
    tit2 := some [title]
    trck := some [toString trackNo]
    rest := t.rest }

/-- The field mutation of one iteration of `tag_flacs`: when cover bytes
are present, clear the pictures and add the single front cover; then set
album, albumartist, date, title and tracknumber, and set genre, artist
and discnumber only when their source value is nonempty/given. -/
def applyFlac (dv : DoujinVoice) (cover : Option Bytes) (disc : Option Nat)
    (genres : List String) (trackNo : Nat) (title : String) (t : FLACFile) :
    FLACFile :=
  let t :=
    match cover with
    | some d => { t with pictures := [⟨3, "image/png", "Front Cover", d⟩] }
    | none => t
  { t with
    album := some [dv.name]
    albumartist := some [dv.circle]
    date := some [dv.sale_date]
    title := some [title]
    tracknumber := some [toString trackNo]
    genre := if genres = [] then t.genre else some genres
    artist := if dv.seiyus = [] then t.artist else some dv.seiyus
    discnumber :=
      match disc with
      | some d => some [toString d]
      | none => t.discnumber }

/-- The field mutation of one iteration of `tag_mp4s`: replace the cover
list when cover bytes are present; assign the album, date, name and
album-artist atoms as bare strings and the artist atom as the seiyu
list (the values are stored unwrapped); assign the genre atom the
comma-space join (a bare string) only when the genre list is nonempty;
set the track tuple, and the disc tuple only when a disc number is
given. -/
def applyMp4 (dv : DoujinVoice) (cover : Option Bytes) (disc : Option Nat)
    (genres : List String) (trackNo : Nat) (title : String) (t : MP4) : MP4 :=
  let t :=
    match cover with
    | some d => { t with covr := some [d] }
    | none => t
  { t with
    alb := some (.str dv.name)
    day := some (.str dv.sale_date)
    nam := some (.str title)
    aART := some (.str dv.circle)
    art := some (.strs dv.seiyus)
    gen := if genres = [] then t.gen
      else some (.str (String.intercalate ", " genres))
    trkn := some [(trackNo, 0)]
    disk :=
      match disc with
      | some d => some [(d, 0)]
      | none => t.disk }

/-- The snapshot-compare-save discipline shared by all three taggers:
snapshot before, mutate, snapshot after, persist only when the snapshots
differ. Returns the on-disk state and whether a write happened. -/
def syncStep {σ τ : Type} [DecidableEq τ] (f : σ → σ) (snap : σ → τ)
    (t : σ) : σ × Bool :=
  if snap t ≠ snap (f t) then (f t, true) else (t, false)

/-- One iteration of the loop of `tag_mp3s` for a file that opens
normally: compute the genre list from the sidecar-lyric check, then
apply the snapshot-compare-save discipline with the ID3 mutation. -/
def tag_mp3_one (dv : DoujinVoice) (cover : Option Bytes) (disc : Option Nat)
    (add_chinese_tag : Bool) (siblings : List SiblingFile) (stem : String)
    (trackNo : Nat) (title : String) (t : ID3) : ID3 × Bool :=
  let genres := mp3FlacGenres add_chinese_tag (hasLyricSidecar siblings stem) dv.genres
  syncStep (applyId3 dv cover disc genres trackNo title) extract_id3_tags t

/-- One iteration of the loop of `tag_flacs`. -/
def tag_flac_one (dv : DoujinVoice) (cover : Option Bytes) (disc : Option Nat)
    (add_chinese_tag : Bool) (siblings : List SiblingFile) (stem : String)
    (trackNo : Nat) (title : String) (t : FLACFile) : FLACFile × Bool :=
  let genres := mp3FlacGenres add_chinese_tag (hasLyricSidecar siblings stem) dv.genres
  syncStep (applyFlac dv cover disc genres trackNo title) extract_flac_tags t

/-- One iteration of the loop of `tag_mp4s`. -/
def tag_mp4_one (dv : DoujinVoice) (cover : Option Bytes) (disc : Option Nat)
    (add_chinese_tag : Bool) (parentPath : String)
    (trackNo : Nat) (title : String) (t : MP4) : MP4 × Bool :=
  let genres := mp4Genres add_chinese_tag parentPath dv.genres
  syncStep (applyMp4 dv cover disc genres trackNo title) extract_mp4_tags t

/-- Outcome of the repair path of `tag_mp3s` for a file whose first
`ID3(p)` raised `ID3NoHeaderError`: the ffmpeg transcode fails, the
`os.replace` fails, or the transcoded file is reopened (yielding its
tags, or `none` when `ID3(p)` raises `ID3NoHeaderError` again). -/
inductive RepairOutcome where
  | ffmpegFailed
  | replaceFailed
  | reopened (t : Option ID3)
deriving Repr, DecidableEq

/-- One MP3 file of a group as `tag_mp3s` sees it: the result of the
first `ID3(p)` (`none` models `ID3NoHeaderError`), the outcome of the
repair path should it be needed, the adjacent files and the stem for the
sidecar-lyric check, and the title produced for this position. -/
structure Mp3Job where
  firstOpen : Option ID3
  repair : RepairOutcome
  siblings : List SiblingFile
  stem : String
  title : String
deriving Repr, DecidableEq

/-- Result of `tag_mp3s` for one file: tagged (with the resulting on-disk
tags and whether a write happened), or skipped by a `continue` of the
repair path. -/
inductive Mp3Result where
  | done (t : ID3) (written : Bool)
  | skipped
deriving Repr, DecidableEq

/-- The body of the loop of `tag_mp3s` for one file: tag it when it
opens; otherwise run the repair path, skipping on ffmpeg failure,
replace failure or a second missing header, and retagging once after a
successful repair. -/
def mp3JobResult (dv : DoujinVoice) (cover : Option Bytes) (disc : Option Nat)
    (add_chinese_tag : Bool) (trackNo : Nat) (j : Mp3Job) : Mp3Result :=
  match j.firstOpen with
  | some t =>
    let r := tag_mp3_one dv cover disc add_chinese_tag j.siblings j.stem trackNo j.title t
    .done r.1 r.2
  | none =>
    match j.repair with
    | .ffmpegFailed => .skipped
    | .replaceFailed => .skipped
    | .reopened none => .skipped
    | .reopened (some t) =>
      let r := tag_mp3_one dv cover disc add_chinese_tag j.siblings j.stem trackNo j.title t
      .done r.1 r.2

/-- The loop of `tag_mp3s` from track number `trackNo` on: every file is
processed; a failure in one file only skips that file. -/
def tagMp3sFrom (dv : DoujinVoice) (cover : Option Bytes) (disc : Option Nat)
    (add_chinese_tag : Bool) : Nat → List Mp3Job → List Mp3Result
  | _, [] => []
  | trackNo, j :: rest =>
    mp3JobResult dv cover disc add_chinese_tag trackNo j ::
      tagMp3sFrom dv cover disc add_chinese_tag (trackNo + 1) rest

/-- `tag_mp3s` of src/dvtag/_dvtag.py over an already-sorted group (track
numbers start at 1; titles are precomputed per job). -/
def tag_mp3s (dv : DoujinVoice) (cover : Option Bytes) (disc : Option Nat)
    (add_chinese_tag : Bool) (jobs : List Mp3Job) : List Mp3Result :=
  tagMp3sFrom dv cover disc add_chinese_tag 1 jobs

/-- One FLAC file of a group as `tag_flacs` sees it: the result of
`FLAC(p)` (`none` models a constructor exception — `tag_flacs` has no
handler for it), the adjacent files and stem, and the title for this
position. -/
structure FlacJob where
  openResult : Option FLACFile
  siblings : List SiblingFile
  stem : String
  title : String
deriving Repr, DecidableEq

/-- The loop of `tag_flacs` from track number `trackNo` on. There is no
per-file exception handling: a file whose open fails raises out of the
loop, so the files after it are never processed. Returns the results of
the files processed before the abort, and `some k` when the loop aborted
at track number `k`. -/
def tagFlacsFrom (dv : DoujinVoice) (cover : Option Bytes) (disc : Option Nat)
    (add_chinese_tag : Bool) :
    Nat → List FlacJob → List (FLACFile × Bool) × Option Nat
  | _, [] => ([], none)
  | trackNo, j :: rest =>
    match j.openResult with
    | none => ([], some trackNo)
    | some t =>
      let r := tag_flac_one dv cover disc add_chinese_tag j.siblings j.stem trackNo j.title t
      let next := tagFlacsFrom dv cover disc add_chinese_tag (trackNo + 1) rest
      (r :: next.1, next.2)

/-- `tag_flacs` of src/dvtag/_dvtag.py over an already-sorted group. -/
def tag_flacs (dv : DoujinVoice) (cover : Option Bytes) (disc : Option Nat)
    (add_chinese_tag : Bool) (jobs : List FlacJob) :
    List (FLACFile × Bool) × Option Nat :=
  tagFlacsFrom dv cover disc add_chinese_tag 1 jobs

/-- The disc counter of `tag`: emit the current value for each of `n`
groups, incrementing after each group when the counter is set. -/
def discRun : Option Nat → Nat → List (Option Nat) × Option Nat
  | d, 0 => ([], d)
  | d, n + 1 =>
    let next := discRun (d.map (fun k => k + 1)) n
    (d :: next.1, next.2)

/-- The disc numbers assigned by `tag` to the groups of a release, in
processing order: FLAC groups, then M4A groups, then MP3 groups, then
MP4 groups. The counter starts at 1 only when there is more than one
group in total. -/
def discSeq (nf nm na np : Nat) : List (Option Nat) :=
  let disc0 := if nf + nm + na + np > 1 then some 1 else none
  let r1 := discRun disc0 nf
  let r2 := discRun r1.2 nm
  let r3 := discRun r2.2 na
  let r4 := discRun r3.2 np
  r1.1 ++ r2.1 ++ r3.1 ++ r4.1

/-- What `scrape(workno)` can do, seen from `tag`: return the metadata,
raise `ParsingError`, or raise any other exception. -/
inductive ScrapeOutcome where
  | ok (dv : DoujinVoice)
  | parsingError (msg : String)
  | otherError
deriving Repr, DecidableEq

/-- The control-flow outcome of `tag(basepath, workno)`: return before
scraping because no audio group was found, re-raise a `ParsingError`
from `scrape`, log any other scrape exception and return (no tagger is
invoked, no file is modified), or reach the tagging phase with the fully
resolved metadata and the disc numbers handed to the taggers. -/
inductive TagOutcome where
  | noAudioReturn
  | raisedParsingError (msg : String)
  | loggedAndReturned
  | tagged (dv : DoujinVoice) (discs : List (Option Nat))
deriving Repr, DecidableEq

/-- `tag(basepath, workno)` of src/dvtag/_dvtag.py, with the directory
walk abstracted to the four group counts and the network abstracted to
the scrape outcome. -/
def tag (nf nm na np : Nat) (res : ScrapeOutcome) : TagOutcome :=
  if nf + nm + na + np = 0 then .noAudioReturn
  else
    match res with
    | .parsingError m => .raisedParsingError m
    | .otherError => .loggedAndReturned
    | .ok dv => .tagged dv (discSeq nf nm na np)

/-- What the fixed regular-expression extractions of `scrape` find in the
primary HTML document: the product/maker attribute pair, the Open-Graph
image content, the seiyu anchors (empty when the 声优 row is absent or
holds no anchor), the genre anchors, and the sale-date URL fragment. -/
structure HtmlDoc where
  productMaker : Option (String × String)
  ogImage : Option String
  seiyus : List String
  genres : List String
  saleDate : Option (String × String × String)
deriving Repr, DecidableEq

/-- The first work of the chobit enrichment payload. -/
structure ChobitWork where
  file_type : String
  thumb : String
  work_name : String
deriving Repr, DecidableEq

/-- The parsed chobit enrichment payload (`json.loads(res[9:-1])`);
callers pass `none` when that parse raises. -/
structure ChobitData where
  count : Nat
  works : List ChobitWork
deriving Repr, DecidableEq

/-- `urljoin("https://www.dlsite.com", u)` for the two shapes that occur:
an absolute URL is kept, a site-relative path is resolved against the
fixed origin. -/
def urljoinDlsite (u : String) : String :=
  if "http://".data.isPrefixOf u.data || "https://".data.isPrefixOf u.data then u
  else "https://www.dlsite.com" ++ u

/-- `s.replace(pat, rep, 1)` of Python for a nonempty `pat`: replace the
leftmost occurrence only. -/
def replaceFirst (pat rep : Chars) : Chars → Chars
  | [] => []
  | c :: restS =>
    if pat.isPrefixOf (c :: restS) then rep ++ (c :: restS).drop pat.length
    else c :: replaceFirst pat rep restS

/-- `scrape(workno)` of src/dvtag/_scrape.py with the two fetched
documents abstracted to their extraction results: raise `ParsingError`
(modelled as `Except.error` with the message) when the product/maker
pair, the cover meta-tag or the sale-date fragment is absent, or when
the chobit payload cannot be parsed (including a nonzero count with an
empty works array, where `works[0]` raises inside the guarded block);
otherwise assemble the record, overriding the image URL for audio works
and preferring the shorter chobit work name when it is contained in the
scraped name. -/
def scrape (workno : String) (doc : HtmlDoc) (chobit : Option ChobitData) :
    Except String DoujinVoice :=
  match doc.productMaker with
  | none => .error ("no work name found for " ++ workno)
  | some nm =>
    match doc.ogImage with
    | none => .error ("no cover image url found for " ++ workno)
    | some og =>
      let image_url := urljoinDlsite og
      match doc.saleDate with
      | none => .error ("no sale date found for " ++ workno)
      | some ymd =>
        let sale_date := ymd.1 ++ "-" ++ ymd.2.1 ++ "-" ++ ymd.2.2
        match chobit with
        | none => .error ("unable to extract metadata from chobit for " ++ workno)
        | some data =>
          if data.count ≠ 0 then
            match data.works with
            | [] => .error ("unable to extract metadata from chobit for " ++ workno)
            | work :: _ =>
              let image_url :=
                if work.file_type = "audio" then
                  String.mk (replaceFirst "media.dlsite.com/chobit".data
                    "file.chobit.cc".data work.thumb.data)
                else image_url
              let name := if containsSub work.work_name nm.1 then work.work_name else nm.1
              .ok ⟨workno, name, image_url, doc.seiyus, nm.2, doc.genres, sale_date⟩
          else
            .ok ⟨workno, nm.1, image_url, doc.seiyus, nm.2, doc.genres, sale_date⟩

/-- The mandatory-field and enrichment-shape condition under which
`scrape` succeeds. -/
def chobitShapeOk : Option ChobitData → Bool
  | none => false
  | some d => d.count == 0 || !d.works.isEmpty

/-- The prefix letters of `_workno_pat`, `(R|B|V)` with `re.IGNORECASE`. -/
def isRBV (c : Char) : Bool :=
  c == 'R' || c == 'r' || c == 'B' || c == 'b' || c == 'V' || c == 'v'

/-- The letter `J` of `_workno_pat` with `re.IGNORECASE`. -/
def isJchar (c : Char) : Bool :=
  c == 'J' || c == 'j'

/-- A match of `(R|B|V)J\d{6}(\d\d)?` anchored at the head of `l`: the
prefix letter, `J`, six digits, and greedily two more when both are
present (so a token has six or eight digits, never seven). -/
def matchWorknoAt (l : Chars) : Option Chars :=
  match l with
  | c1 :: c2 :: restL =>
    if isRBV c1 && isJchar c2 then
      let d6 := restL.take 6
      if d6.length == 6 && d6.all isPyDigit then
        let d2 := (restL.drop 6).take 2
        if d2.length == 2 && d2.all isPyDigit then
          some (c1 :: c2 :: restL.take 8)
        else
          some (c1 :: c2 :: d6)
      else none
    else none
  | _ => none

/-- `re.search` for `_workno_pat`: the leftmost position whose suffix
matches wins. -/
def searchWorkno : Chars → Option Chars
  | [] => none
  | c :: restS =>
    match matchWorknoAt (c :: restS) with
    | some m => some m
    | none => searchWorkno restS

/-- `get_workno(name)` of src/dvtag/_utils.py: the first `_workno_pat`
match, uppercased; `None` when there is no match. -/
def get_workno (name : String) : Option String :=
  (searchWorkno name.data).map (fun m => String.mk (m.map Char.toUpper))

/-- The leftmost-match search phrased declaratively: the first tail of
the input at which the anchored pattern matches. -/
def worknoFindTails (l : Chars) : Option Chars :=
  (l.tails.find? (fun t => (matchWorknoAt t).isSome)).bind matchWorknoAt

/-- Modelled from the spec: the token shape the spec's input-boundary
sentence claims for release ids — a one-letter or two-letter prefix
followed by 6 to 8 digits (a run of at least six ASCII digits after the
letters). `containsClaimedToken s` holds when some position of `s`
starts such a token. -/
def containsClaimedToken (s : String) : Bool :=
  s.data.tails.any (fun t =>
    match t with
    | c1 :: c2 :: restT =>
      (c1.isAlpha && c2.isAlpha && 6 ≤ (restT.takeWhile Char.isDigit).length) ||
      (c1.isAlpha && 6 ≤ ((c2 :: restT).takeWhile Char.isDigit).length)
    | _ => false)

/-- A sample resolved release used by the concrete counterexamples. -/
def dvSample : DoujinVoice :=
  ⟨"RJ000001", "Album", "https://img", ["Voice"], "Circle", ["voice"], "2024-01-01"⟩

/-- An MP3 file that already carries embedded cover art (an `APIC` frame)
plus a full set of previously written fields. -/
def id3WithCover : ID3 :=
  { apic := some ⟨"image/jpeg", "", [7, 7]⟩
    talb := some ["Album"]
    tpe2 := some ["Circle"]
    tdrc := some ["2024-01-01"]
    tcon := some ["voice"]
    tpos := none
    tpe1 := some ["Voice"]
    tit2 := some ["T1"]
    trck := some ["1"]
    rest := [] }

/-- A healthy FLAC file with empty tags. -/
def flacBlank : FLACFile :=
  { album := none, albumartist := none, date := none, title := none
    tracknumber := none, genre := none, artist := none, discnumber := none
    pictures := [], rest := [] }

/-- A blank MP4 file. -/
def mp4Blank : MP4 :=
  { covr := none, alb := none, day := none, nam := none, aART := none
    art := none, gen := none, trkn := none, disk := none, rest := [] }

/-- A FLAC group of two files whose first file fails to open and whose
second is healthy. -/
def flacJobsBadFirst : List FlacJob :=
  [⟨none, [], "01 A", "A"⟩, ⟨some flacBlank, [], "02 B", "B"⟩]

/-- A primary document carrying every mandatory field but no seiyu row
and no genre anchors. -/
def docNoLists : HtmlDoc :=
  ⟨some ("N", "C"), some "/img.jpg", [], [], some ("2024", "01", "02")⟩

/-- A well-shaped chobit payload with no works. -/
def chobitEmptyOk : Option ChobitData := some ⟨0, []⟩

theorem applyId3_idem (dv : DoujinVoice) (cover : Option Bytes) (disc : Option Nat)
    (genres : List String) (trackNo : Nat) (title : String) (t : ID3) :
    applyId3 dv cover disc genres trackNo title
        (applyId3 dv cover disc genres trackNo title t) =
      applyId3 dv cover disc genres trackNo title t := rfl

theorem applyFlac_idem (dv : DoujinVoice) (cover : Option Bytes) (disc : Option Nat)
    (genres : List String) (trackNo : Nat) (title : String) (t : FLACFile) :
    applyFlac dv cover disc genres trackNo title
        (applyFlac dv cover disc genres trackNo title t) =
      applyFlac dv cover disc genres trackNo title t := by
  cases cover <;> cases disc <;> simp only [applyFlac] <;> split_ifs <;> rfl

theorem applyMp4_idem (dv : DoujinVoice) (cover : Option Bytes) (disc : Option Nat)
    (genres : List String) (trackNo : Nat) (title : String) (t : MP4) :
    applyMp4 dv cover disc genres trackNo title
        (applyMp4 dv cover disc genres trackNo title t) =
      applyMp4 dv cover disc genres trackNo title t := by
  cases cover <;> cases disc <;> simp only [applyMp4] <;> split_ifs <;> rfl

theorem syncStep_twice {σ τ : Type} [DecidableEq τ] (f : σ → σ) (snap : σ → τ)
    (hf : ∀ s, f (f s) = f s) (t : σ) :
    (syncStep f snap ((syncStep f snap t).1)).2 = false := by
  by_cases h : snap t = snap (f t)
  · simp [syncStep, h]
  · simp [syncStep, h, hf]

/-- C2 counterexample: tagging a blank MP4 writes it, and re-running the
MP4 tagger with identical inputs against that already-tagged file (as
loaded back from disk, where text atoms are lists) writes again — the
bare-string assignments never compare equal to the loaded list values,
so the claimed zero-writes re-run fails for MP4. -/
theorem c2_counterexample :
    (tag_mp4_one dvSample none none false "d" 1 "T" mp4Blank).2 = true ∧
    (tag_mp4_one dvSample none none false "d" 1 "T"
        (mp4Reload (tag_mp4_one dvSample none none false "d" 1 "T" mp4Blank).1)).2 =
      true := by
  decide

/-- C2 amended: the snapshot-compare-save discipline makes re-running the
MP3 and FLAC taggers with identical inputs a no-op, but not the MP4
tagger: `tag_mp4s` assigns its text atoms as bare strings while a loaded
file holds lists of strings, so against any file whose album atom is not
a bare-string value (as after any load from disk) and a nonempty album
name, the snapshots differ and the file is saved on every run. -/
theorem c2_sync_idempotence_per_format (dv : DoujinVoice) (cover : Option Bytes)
    (disc : Option Nat) (act : Bool) (siblings : List SiblingFile)
    (stem parentPath : String) (trackNo : Nat) (title : String)
    (t1 : ID3) (t2 : FLACFile) (t3 : MP4) :
    (tag_mp3_one dv cover disc act siblings stem trackNo title
        ((tag_mp3_one dv cover disc act siblings stem trackNo title t1).1)).2 = false ∧
    (tag_flac_one dv cover disc act siblings stem trackNo title
        ((tag_flac_one dv cover disc act siblings stem trackNo title t2).1)).2 = false ∧
    ((∀ s : String, t3.alb ≠ some (.str s)) → dv.name ≠ "" →
      (tag_mp4_one dv cover disc act parentPath trackNo title t3).2 = true) := by
  refine ⟨?_, ?_, ?_⟩
  · unfold tag_mp3_one
    exact syncStep_twice _ _ (fun s => applyId3_idem dv cover disc _ trackNo title s) t1
  · unfold tag_flac_one
    exact syncStep_twice _ _ (fun s => applyFlac_idem dv cover disc _ trackNo title s) t2
  · intro hload hname
    have hne : extract_mp4_tags t3 ≠
        extract_mp4_tags (applyMp4 dv cover disc
          (mp4Genres act parentPath dv.genres) trackNo title t3) := by
      intro heq
      have halb := congrArg Mp4Snapshot.alb heq
      have hr : (extract_mp4_tags (applyMp4 dv cover disc
          (mp4Genres act parentPath dv.genres) trackNo title t3)).alb =
          some (.str dv.name) := by
        show mp4TextTruthy (some (.str dv.name)) = some (.str dv.name)
        simp [mp4TextTruthy, hname]
      rw [hr] at halb
      simp only [extract_mp4_tags] at halb
      match hv : t3.alb with
      | none => rw [hv] at halb; simp [mp4TextTruthy] at halb
      | some (.str s) => exact hload s hv
      | some (.strs l) =>
        rw [hv] at halb
        by_cases hl : l = [] <;> simp [mp4TextTruthy, hl] at halb
    simp only [tag_mp4_one, syncStep]
    rw [if_pos hne]

/-- C2 witness: a blank MP4 file (its album atom absent, so not a
bare-string value) with the sample metadata is written by the tagger. -/
theorem c2_sync_idempotence_witness :
    (∀ s : String, mp4Blank.alb ≠ some (.str s)) ∧ dvSample.name ≠ "" ∧
    (tag_mp4_one dvSample none none false "d" 1 "T" mp4Blank).2 = true := by
  have hload : ∀ s : String, mp4Blank.alb ≠ some (.str s) := by
    intro s h
    simp [mp4Blank] at h
  refine ⟨hload, by decide, ?_⟩
  exact (c2_sync_idempotence_per_format dvSample none none false [] "d" "d" 1 "T"
    id3WithCover flacBlank mp4Blank).2.2 hload (by decide)

theorem discRun_none (n : Nat) : discRun none n = (List.replicate n none, none) := by
  induction n with
  | zero => rfl
  | succ k ih => simp [discRun, ih, List.replicate_succ]

theorem discRun_some (n : Nat) : ∀ d : Nat, discRun (some d) n =
    ((List.range n).map (fun i => some (d + i)), some (d + n)) := by
  induction n with
  | zero => intro d; simp [discRun]
  | succ k ih =>
    intro d
    simp only [discRun, Option.map_some']
    rw [ih (d + 1)]
    have harith : ∀ i : Nat, d + 1 + i = d + (i + 1) := by omega
    simp only [Prod.mk.injEq]
    constructor
    · rw [List.range_succ_eq_map]
      simp [List.map_map, Function.comp, harith]
    · exact congrArg some (by omega)

/-- C3: with exactly one file-group across all formats (or none) the disc
counter stays unset and no disc field is written, and with more than one
group the groups receive 1, 2, 3, … in the fixed processing order FLAC,
M4A, MP3, MP4; an unset counter writes no disc field in any container. -/
theorem c3_disc_numbering (nf nm na np : Nat) (dv : DoujinVoice)
    (cover : Option Bytes) (genres : List String) (trackNo : Nat) (title : String)
    (t1 : ID3) (t2 : FLACFile) (t3 : MP4) :
    (discSeq nf nm na np =
      if nf + nm + na + np ≤ 1 then List.replicate (nf + nm + na + np) none
      else (List.range (nf + nm + na + np)).map (fun i => some (i + 1))) ∧
    (applyId3 dv cover none genres trackNo title t1).tpos = none ∧
    (applyFlac dv cover none genres trackNo title t2).discnumber = t2.discnumber ∧
    (applyMp4 dv cover none genres trackNo title t3).disk = t3.disk := by
  refine ⟨?_, rfl, ?_, ?_⟩
  · by_cases h : nf + nm + na + np ≤ 1
    · rw [if_pos h]
      have h0 : ¬ (nf + nm + na + np > 1) := by omega
      simp only [discSeq, if_neg h0, discRun_none]
      rw [List.append_assoc, List.append_assoc, ← List.replicate_add,
        ← List.replicate_add, ← List.replicate_add]
      simp [Nat.add_assoc]
    · rw [if_neg h]
      have h1 : nf + nm + na + np > 1 := by omega
      simp only [discSeq, if_pos h1, discRun_some]
      rw [show nf + nm + na + np = nf + (nm + (na + np)) from by omega,
        List.range_add, List.range_add, List.range_add]
      simp only [List.map_append, List.map_map, List.append_assoc]
      refine congrArg₂ (· ++ ·) ?_ (congrArg₂ (· ++ ·) ?_ (congrArg₂ (· ++ ·) ?_ ?_)) <;>
        exact List.map_congr_left (fun a _ => by
          simp [Function.comp, Nat.add_comm, Nat.add_assoc, Nat.add_left_comm])
  · cases cover <;> rfl
  · cases cover <;> rfl

/-- C4 counterexample: tagging an MP3 that already carries embedded cover
art with `cover = None` does not leave the art untouched — the managed
`APIC` frame is deleted unconditionally and, with no cover to re-add, the
file is saved without it. -/
theorem c4_counterexample :
    id3WithCover.apic.isSome = true ∧
    ((tag_mp3_one dvSample none none false [] "01 T1" 1 "T1" id3WithCover).1).apic = none ∧
    (tag_mp3_one dvSample none none false [] "01 T1" 1 "T1" id3WithCover).2 = true := by
  decide

/-- C4 amended: with `cover = None` every other managed field is still
written, and pre-existing embedded cover art is left untouched for FLAC
and MP4 — but for MP3 the managed cover frame is deleted and not
re-added, so the saved file has no cover frame. -/
theorem c4_cover_none_effects (dv : DoujinVoice) (disc : Option Nat)
    (act : Bool) (siblings : List SiblingFile) (stem parentPath : String)
    (genres : List String) (trackNo : Nat) (title : String)
    (t1 : ID3) (t2 : FLACFile) (t3 : MP4) :
    (applyFlac dv none disc genres trackNo title t2).pictures = t2.pictures ∧
    (applyMp4 dv none disc genres trackNo title t3).covr = t3.covr ∧
    (applyId3 dv none disc genres trackNo title t1).apic = none ∧
    (applyFlac dv none disc genres trackNo title t2).album = some [dv.name] ∧
    (applyMp4 dv none disc genres trackNo title t3).nam = some (.str title) ∧
    (applyId3 dv none disc genres trackNo title t1).talb = some [dv.name] ∧
    (tag_flac_one dv none disc act siblings stem trackNo title t2).1.pictures =
      t2.pictures ∧
    (tag_mp4_one dv none disc act parentPath trackNo title t3).1.covr = t3.covr ∧
    (tag_mp3_one dv none disc act siblings stem trackNo title t1).1.apic = none := by
  refine ⟨rfl, rfl, rfl, rfl, rfl, rfl, ?_, ?_, ?_⟩
  · simp only [tag_flac_one, syncStep]
    split <;> rfl
  · simp only [tag_mp4_one, syncStep]
    split <;> rfl
  · simp only [tag_mp3_one, syncStep]
    split
    · rfl
    · next hsnap =>
      have h1 : extract_id3_tags t1 =
          extract_id3_tags (applyId3 dv none disc
            (mp3FlacGenres act (hasLyricSidecar siblings stem) dv.genres)
            trackNo title t1) := by
        by_contra hc
        exact hsnap hc
      have h2 := congrArg ID3Snapshot.apic h1
      simpa [extract_id3_tags, applyId3] using h2

/-- C1 counterexample: on the spec's own example (third stem breaks the
structural pattern, suffix toggles off) extraction does not return the
stems unchanged — it returns a mix of extracted bodies and the raw third
stem. -/
theorem c1_counterexample :
    extract_titles ⟨false, false⟩ ["01. Intro", "02. Verse", "bad"]
        [⟨".mp3", "d", "e"⟩, ⟨".mp3", "d", "e"⟩, ⟨".mp3", "d", "e"⟩] =
      ["Intro", "Verse", "bad"] ∧
    ["Intro", "Verse", "bad"] ≠ ["01. Intro", "02. Verse", "bad"] := by
  exact ⟨rfl, by decide⟩

/-- C1 amended: extraction is per-stem, not all-or-nothing — each output
title depends only on its own (stem, file) pair, a stem that fails the
pattern falls back to that raw stem alone, and with the suffix toggles
off the output title is exactly the pattern's body when the stem matches
and the raw stem otherwise. -/
theorem c1_per_stem_extraction (cfg : TitleConfig) (stem : String) (f : FileInfo)
    (stems : List String) (files : List FileInfo) :
    extract_titles cfg (stem :: stems) (f :: files) =
      extractOneTitle cfg stem f :: extract_titles cfg stems files ∧
    extractOneTitle ⟨false, false⟩ stem f = (matchTitle stem).getD stem := by
  constructor
  · rfl
  · unfold extractOneTitle
    cases matchTitle stem <;> rfl

/-- C9 counterexample: a one-stem input is not returned unchanged — the
structural extraction applies to it like to any other stem. -/
theorem c9_counterexample :
    extract_titles ⟨false, false⟩ ["01. Intro"] [⟨".mp3", "d", "e"⟩] = ["Intro"] ∧
    ["Intro"] ≠ ["01. Intro"] := ⟨rfl, by decide⟩

/-- C9 amended: an empty input yields the empty list, and a one-stem
input undergoes exactly the same per-stem extraction and suffixing as a
stem at any position of a longer input — there is no small-input
pass-through special case. -/
theorem c9_small_inputs (cfg : TitleConfig) (stem : String) (f : FileInfo)
    (files : List FileInfo) :
    extract_titles cfg [] files = [] ∧
    extract_titles cfg [stem] [f] = [extractOneTitle cfg stem f] := ⟨rfl, rfl⟩

/-- C5 counterexample: for the MP4 tagger the 中文 genre trigger is the
parent directory path containing the literal 中文, not the presence of a
sidecar lyric file: with a matching `.lrc` sidecar present but a parent
path without 中文 the tag is not appended, and with a 中文 parent path and
no sidecar at all it is appended. -/
theorem c5_counterexample :
    hasLyricSidecar [⟨"01 A.lrc", ".lrc"⟩] "01 A" = true ∧
    (tag_mp4_one dvSample none none true "albumdir" 1 "A" mp4Blank).1.gen =
      some (.str "voice") ∧
    (tag_mp4_one dvSample none none true "work/中文/x" 1 "A" mp4Blank).1.gen =
      some (.str "voice, 中文") := by
  decide

/-- C5 amended: for MP3 and FLAC the 中文 tag is appended exactly when a
sidecar lyric file matches (once, provided the base genre list holds it
at most once) and never without one; for MP4 the trigger is instead the
parent path containing 中文, which then applies the same append rule. -/
theorem c5_genre_enrichment (gs : List String) (parentPath : String) :
    (List.count "中文" gs ≤ 1 → (mp3FlacGenres true true gs).count "中文" = 1) ∧
    mp3FlacGenres true false gs = gs ∧
    (containsSub "中文" parentPath = false → mp4Genres true parentPath gs = gs) ∧
    (containsSub "中文" parentPath = true →
      mp4Genres true parentPath gs = mp3FlacGenres true true gs) := by
  refine ⟨?_, by simp [mp3FlacGenres], ?_, ?_⟩
  · intro hcount
    unfold mp3FlacGenres
    by_cases hnil : gs = []
    · simp [hnil]
    · by_cases hmem : "中文" ∈ gs
      · have hpos : 0 < gs.count "中文" := List.count_pos_iff.mpr hmem
        simp only [if_pos rfl, if_neg hnil, if_pos hmem, if_true]
        omega
      · have hzero : gs.count "中文" = 0 := List.count_eq_zero.mpr hmem
        simp only [if_pos rfl, if_neg hnil, if_neg hmem, if_true]
        simp [List.count_append, hzero]
  · intro h
    simp [mp4Genres, h]
  · intro h
    simp [mp4Genres, mp3FlacGenres, h]

/-- C5 witness: a concrete base genre list and lyric-free MP4 path. -/
theorem c5_genre_enrichment_witness :
    (List.count "中文" ["voice"] ≤ 1 ∧
      (mp3FlacGenres true true ["voice"]).count "中文" = 1) ∧
    containsSub "中文" "albumdir" = false ∧
    mp4Genres true "albumdir" ["voice"] = ["voice"] := by
  refine ⟨⟨by decide, (c5_genre_enrichment ["voice"] "albumdir").1 (by decide)⟩,
    by decide, (c5_genre_enrichment ["voice"] "albumdir").2.2.1 (by decide)⟩

theorem tagMp3sFrom_length (dv : DoujinVoice) (cover : Option Bytes)
    (disc : Option Nat) (act : Bool) (n : Nat) (jobs : List Mp3Job) :
    (tagMp3sFrom dv cover disc act n jobs).length = jobs.length := by
  induction jobs generalizing n with
  | nil => rfl
  | cons j rest ih => simp [tagMp3sFrom, ih]

/-- C6 counterexample: a FLAC group whose first file fails to open aborts
the whole group — the healthy second file is never processed (the result
list is empty and the loop reports the abort at track 1), so a failure
scoped to one file does abort its siblings for FLAC. -/
theorem c6_counterexample :
    (tag_flacs dvSample none none false flacJobsBadFirst).1 = [] ∧
    (tag_flacs dvSample none none false flacJobsBadFirst).2 = some 1 ∧
    (flacJobsBadFirst.getD 1 ⟨none, [], "", ""⟩).openResult = some flacBlank := by
  decide

/-- C6 amended: only the MP3 tagger isolates per-file failures — its loop
processes every file of the group, each file's result depending only on
its own job (skipping it when the header is missing and the single
repair-and-retry fails), while the FLAC tagger has no per-file handling
and stops at the first file that fails to open. -/
theorem c6_mp3_per_file_isolation (dv : DoujinVoice) (cover : Option Bytes)
    (disc : Option Nat) (act : Bool) (n : Nat) (j : Mp3Job)
    (rest jobs : List Mp3Job) :
    tagMp3sFrom dv cover disc act n (j :: rest) =
      mp3JobResult dv cover disc act n j ::
        tagMp3sFrom dv cover disc act (n + 1) rest ∧
    (tag_mp3s dv cover disc act jobs).length = jobs.length ∧
    mp3JobResult dv cover disc act n
        { firstOpen := none, repair := .ffmpegFailed, siblings := j.siblings,
          stem := j.stem, title := j.title } = .skipped ∧
    mp3JobResult dv cover disc act n
        { firstOpen := none, repair := .reopened none, siblings := j.siblings,
          stem := j.stem, title := j.title } = .skipped := by
  exact ⟨rfl, tagMp3sFrom_length dv cover disc act 1 jobs, rfl, rfl⟩

/-- C7: the resolver fails exactly when the product/maker pair, the cover
meta-tag or the sale-date fragment is absent from the primary document or
the enrichment payload is unusable (unparsable, or a nonzero count with
no works); absent seiyu or genre lists never fail and are passed through
(empty stays empty). -/
theorem c7_scrape_failures (workno : String) (doc : HtmlDoc)
    (chobit : Option ChobitData) (dv : DoujinVoice) :
    ((scrape workno doc chobit).isOk =
      (doc.productMaker.isSome && doc.ogImage.isSome && doc.saleDate.isSome &&
        chobitShapeOk chobit)) ∧
    (scrape workno doc chobit = .ok dv →
      dv.seiyus = doc.seiyus ∧ dv.genres = doc.genres) := by
  obtain ⟨pm, og, sy, gn, sd⟩ := doc
  constructor
  · cases chobit with
    | none =>
      cases pm <;> cases og <;> cases sd <;>
        simp [scrape, chobitShapeOk, Except.isOk, Except.toBool]
    | some data =>
      obtain ⟨cnt, works⟩ := data
      by_cases hc : cnt = 0 <;> cases works <;> cases pm <;> cases og <;> cases sd <;>
        simp [scrape, chobitShapeOk, Except.isOk, Except.toBool, hc]
  · intro h
    cases chobit with
    | none => cases pm <;> cases og <;> cases sd <;> simp [scrape] at h
    | some data =>
      obtain ⟨cnt, works⟩ := data
      by_cases hc : cnt = 0 <;> cases works <;> cases pm <;> cases og <;> cases sd <;>
        simp [scrape, hc] at h <;> subst h <;> exact ⟨rfl, rfl⟩

/-- C7 witness: a document with every mandatory field but empty seiyu and
genre extractions resolves successfully to a record with empty lists. -/
theorem c7_scrape_failures_witness :
    docNoLists.seiyus = [] ∧ docNoLists.genres = [] ∧
    scrape "RJ1" docNoLists chobitEmptyOk =
      .ok ⟨"RJ1", "N", "https://www.dlsite.com/img.jpg", [], "C", [], "2024-01-02"⟩ ∧
    (⟨"RJ1", "N", "https://www.dlsite.com/img.jpg", [], "C", [],
        "2024-01-02"⟩ : DoujinVoice).seiyus = [] ∧
    (⟨"RJ1", "N", "https://www.dlsite.com/img.jpg", [], "C", [],
        "2024-01-02"⟩ : DoujinVoice).genres = [] := by
  have happ := (c7_scrape_failures "RJ1" docNoLists chobitEmptyOk
    ⟨"RJ1", "N", "https://www.dlsite.com/img.jpg", [], "C", [], "2024-01-02"⟩).2
    rfl
  exact ⟨rfl, rfl, rfl, happ.1, happ.2⟩

/-- C8 counterexample: "QJ1234567" contains a token of the claimed shape
(two letters then seven digits) yet the extractor returns `None` — the
actual pattern only accepts the prefixes RJ, BJ and VJ with six or eight
digits. -/
theorem c8_counterexample :
    containsClaimedToken "QJ1234567" = true ∧ get_workno "QJ1234567" = none := by
  decide

theorem searchWorkno_eq_findTails (l : Chars) : searchWorkno l = worknoFindTails l := by
  induction l with
  | nil => rfl
  | cons c rest ih =>
    unfold worknoFindTails at ih ⊢
    rw [List.tails_cons, List.find?_cons]
    cases h : matchWorknoAt (c :: rest) with
    | none => simpa [searchWorkno, h] using ih
    | some m => simp [searchWorkno, h]

/-- C8 amended: the extractor returns the uppercased leftmost substring
matching `(R|B|V)J` (case-insensitive) followed by six digits, extended
to eight when two more digits immediately follow (a token has six or
eight digits, never seven, and no other prefixes are accepted), and
`None` when no position matches. -/
theorem c8_workno_extraction :
    (∀ s : String, get_workno s =
      (worknoFindTails s.data).map (fun m => String.mk (m.map Char.toUpper))) ∧
    get_workno "rj1234567" = some "RJ123456" ∧
    get_workno "xxbj12345678yy" = some "BJ12345678" ∧
    get_workno "AJ123456" = none := by
  refine ⟨fun s => ?_, by decide, by decide, by decide⟩
  unfold get_workno
  rw [searchWorkno_eq_findTails]

/-- C10: `tag` re-raises a `ParsingError` from the resolver, logs any
other resolver exception and returns without invoking any tagger, and
reaches the tagging phase only with the fully resolved metadata record
and the disc numbers of `discSeq`. -/
theorem c10_tag_error_handling (nf nm na np : Nat) (msg : String)
    (res : ScrapeOutcome) (dv : DoujinVoice) (discs : List (Option Nat)) :
    (0 < nf + nm + na + np →
      tag nf nm na np (.parsingError msg) = .raisedParsingError msg) ∧
    (0 < nf + nm + na + np → tag nf nm na np .otherError = .loggedAndReturned) ∧
    (tag nf nm na np res = .tagged dv discs →
      res = .ok dv ∧ discs = discSeq nf nm na np) := by
  refine ⟨?_, ?_, ?_⟩
  · intro h
    unfold tag
    rw [if_neg (by omega)]
  · intro h
    unfold tag
    rw [if_neg (by omega)]
  · intro h
    unfold tag at h
    by_cases h0 : nf + nm + na + np = 0
    · rw [if_pos h0] at h
      cases h
    · rw [if_neg h0] at h
      cases res with
      | ok d =>
        injection h with h1 h2
        exact ⟨by rw [h1], h2.symm⟩
      | parsingError m => cases h
      | otherError => cases h

/-- C10 witness: one FLAC group, each scrape outcome at a concrete
input. -/
theorem c10_tag_error_handling_witness :
    tag 1 0 0 0 (.parsingError "boom") = .raisedParsingError "boom" ∧
    tag 1 0 0 0 .otherError = .loggedAndReturned ∧
    (ScrapeOutcome.ok dvSample = .ok dvSample ∧ discSeq 1 0 0 0 = discSeq 1 0 0 0) := by
  refine ⟨(c10_tag_error_handling 1 0 0 0 "boom" (.ok dvSample) dvSample
      (discSeq 1 0 0 0)).1 (by decide),
    (c10_tag_error_handling 1 0 0 0 "boom" (.ok dvSample) dvSample
      (discSeq 1 0 0 0)).2.1 (by decide),
    (c10_tag_error_handling 1 0 0 0 "boom" (.ok dvSample) dvSample
      (discSeq 1 0 0 0)).2.2 (by decide)⟩
